import Mathlib

/-!
Shallow embedding of the ARIA voice-agent pipeline
(`src/agent/src/voice_routes.py`, `src/agent/src/voice_service.py`,
`src/agent/src/redis_client.py`).

Modelling conventions:
* Python dicts that carry the session context are modelled as structures
  over exactly the keys the code reads (`userId`, `userName`, `llmProvider`,
  `voicePreferences`; resp. `name`, `pitch`, `rate`, `volume`), each field an
  `Option`.  Python dict truthiness (`if user_context:`) becomes "at least
  one key present"; Python string truthiness becomes "present and nonempty".
* Outbound `websocket.send_json` calls are collected in order into a list of
  `Envelope` values.
* Every fallible external call (base64 decode, Groq transcription, the
  anthropic HTTP call, redis `lrange`/`rpush`/`expire`, edge-tts synthesis)
  is an oracle: an `Except String _` value supplied as input, `.error e`
  meaning the Python call raised an exception rendered as the string `e`.
  The control flow around those calls is translated from the source.
* The redis store is modelled from the session's point of view: the single
  key `conversation:{userId}` the session touches, as a list of entries plus
  its TTL.  The `timestamp` field of a history entry (wall clock) is not
  modelled; entries keep `role` and `content`.
* Which external calls the pipeline attempts, and with which arguments, is
  recorded in a `StageCall` trace.
* Audio byte strings and their base64 renderings are carried as opaque
  `String` tokens; numeric voice parameters are `ℚ` (the concrete values the
  claims mention are dyadic, where float and rational arithmetic agree).
-/

/-- Outbound wire messages of `voice_stream`, one constructor per
`websocket.send_json` shape in `voice_routes.py`. -/
inductive Envelope where
  | ready : Envelope
  | processing (status : String) : Envelope
  | transcript (text : String) : Envelope
  | response (text : String) : Envelope
  | audio (audioB64 : String) : Envelope
  | error (message : String) : Envelope
deriving DecidableEq, Repr

/-- The `voicePreferences` dict: the four keys `synthesize_speech` is called
with, each optional. -/
structure VoicePrefs where
  name : Option String := none
  pitch : Option ℚ := none
  rate : Option ℚ := none
  volume : Option ℚ := none
deriving DecidableEq, Repr

/-- The `data` dict of a `context` event, restricted to the keys
`voice_routes.py` reads. -/
structure UserContext where
  userId : Option String := none
  userName : Option String := none
  llmProvider : Option String := none
  voicePreferences : Option VoicePrefs := none
deriving DecidableEq, Repr

/-- Python truthiness of the context dict: nonempty, i.e. at least one of
the modelled keys is present. -/
def UserContext.isTruthy (c : UserContext) : Bool :=
  c.userId.isSome || c.userName.isSome || c.llmProvider.isSome ||
    c.voicePreferences.isSome

/-- Python truthiness of an optional string value (`None` and `""` are
falsy). -/
def pyTruthyStr : Option String → Bool
  | none => false
  | some s => !(s == "")

/-- `user_context and user_context.get("userId")`: the guard on both
history writes in the `audio` branch. -/
def hasTruthyUserId : Option UserContext → Bool
  | none => false
  | some c => c.isTruthy && pyTruthyStr c.userId

/-- `user_context.get("llmProvider", "claude") if user_context else "claude"`. -/
def providerOf : Option UserContext → String
  | none => "claude"
  | some c => if c.isTruthy then c.llmProvider.getD "claude" else "claude"

/-- `user_context.get("voicePreferences", {}) if user_context else {}`. -/
def voicePrefsOf : Option UserContext → VoicePrefs
  | none => {}
  | some c => if c.isTruthy then c.voicePreferences.getD {} else {}

/-- One record of the per-user redis list `conversation:{userId}` as the
session writes it (`role`/`content`; the wall-clock `timestamp` is not
modelled). -/
structure HistoryEntry where
  role : String
  content : String
deriving DecidableEq, Repr

/-- The session's view of its redis key: the list behind
`conversation:{userId}` and that key's TTL in seconds (set by `expire`). -/
structure RedisState where
  log : List HistoryEntry
  ttlSeconds : Option Nat
deriving DecidableEq, Repr

/-- `redis_client.rpush(history_key, entry)`: append at the tail. -/
def RedisState.rpush (r : RedisState) (e : HistoryEntry) : RedisState :=
  { r with log := r.log ++ [e] }

/-- `redis_client.expire(history_key, seconds)`: (re)set the key's TTL. -/
def RedisState.expire (r : RedisState) (seconds : Nat) : RedisState :=
  { r with ttlSeconds := some seconds }

/-- Trace of the external calls a session makes, with the arguments the
code passes. -/
inductive StageCall where
  | b64decode : StageCall
  | transcribe : StageCall
  | lrange : StageCall
  | rpush (role : String) : StageCall
  | expire (seconds : Nat) : StageCall
  | complete (provider : String) : StageCall
  | synthesize (name : String) (pitch rate volume : ℚ) : StageCall
deriving DecidableEq, Repr

/-- `VoiceService.__init__`: the four credential slots read from the
environment (`None` when unset; a set-but-empty value is falsy too, which
`pyTruthyStr` captures). -/
structure VoiceService where
  claude_api_key : Option String := none
  gemini_api_key : Option String := none
  openai_api_key : Option String := none
  groq_api_key : Option String := none
deriving DecidableEq, Repr

/-- Results of the external calls one `audio` turn may perform, `.error e`
meaning the Python call raised with message `e`. -/
structure TurnOracle where
  b64 : Except String String
  stt : Except String String
  rpushUser : Except String Unit
  expireUser : Except String Unit
  claudeCall : Except String String
  rpushAssistant : Except String Unit
  tts : Except String String
deriving Repr

/-! ## Provider adapters (`voice_service.py`) -/

/-- The fixed persona text of `_build_system_prompt`. -/
def basePrompt : String :=
  "You are ARIA, a helpful voice assistant for managing household tasks, " ++
  "calendar events, shopping lists, and budgets. You provide concise, " ++
  "natural responses optimized for voice interaction. Keep responses brief " ++
  "and conversational."

/-- `VoiceService._build_system_prompt`: the persona text, plus the
personalization clause when the `context` dict is truthy, with
`context.get("userName", "there")` as the name. -/
def build_system_prompt (context : Option UserContext) : String :=
  match context with
  | none => basePrompt
  | some c =>
    if c.isTruthy then
      basePrompt ++ "\n\nYou are speaking with " ++ c.userName.getD "there" ++ "."
    else
      basePrompt

/-- The fallback reply of `_get_claude_response`'s exception handler. -/
def claudeFallback : String :=
  "I'm sorry, I encountered an error processing your request."

/-- `VoiceService._get_claude_response`: raise when the credential is falsy,
otherwise return the provider call's text, or the fixed fallback when that
call raises. -/
def get_claude_response (svc : VoiceService) (o : TurnOracle) :
    Except String String :=
  if pyTruthyStr svc.claude_api_key then
    match o.claudeCall with
    | .ok t => .ok t
    | .error _ => .ok claudeFallback
  else
    .error "CLAUDE_API_KEY not configured"

/-- `VoiceService._get_gemini_response`: placeholder constant. -/
def get_gemini_response : Except String String :=
  .ok "Gemini integration coming soon."

/-- `VoiceService._get_openai_response`: placeholder constant. -/
def get_openai_response : Except String String :=
  .ok "OpenAI integration coming soon."

/-- `VoiceService.get_llm_response`: dispatch on the provider name, raising
on an unknown name. -/
def get_llm_response (svc : VoiceService) (provider : String)
    (o : TurnOracle) : Except String String :=
  if provider == "claude" then get_claude_response svc o
  else if provider == "gemini" then get_gemini_response
  else if provider == "openai" then get_openai_response
  else .error ("Unknown LLM provider: " ++ provider)

/-! ## Voice parameter mapping (`synthesize_speech`, lines 176-179) -/

/-- Python `int()` on an exact numeric value: truncation toward zero. -/
def pyInt (q : ℚ) : Int :=
  if 0 ≤ q then ⌊q⌋ else ⌈q⌉

/-- `int((pitch - 1.0) * 50)`: linear pitch to native Hz offset. -/
def pitchToHz (pitch : ℚ) : Int := pyInt ((pitch - 1) * 50)

/-- `int((rate - 1.0) * 100)`: linear rate to native percent offset. -/
def rateToPercent (rate : ℚ) : Int := pyInt ((rate - 1) * 100)

/-- `int(volume * 100)`: linear volume to native percent. -/
def volumeToPercent (volume : ℚ) : Int := pyInt (volume * 100)

/-! ## The audio turn (`voice_routes.py`, `audio` branch)

The turn body (the `try:` block) is split into one definition per pipeline
stage, each mirroring the next statements of the source.  A stage returns
the envelopes sent so far inside the body, the redis state, the call trace,
and `some e` when a statement raised `e` (ending the body early, as the
`except` clause would observe). -/

/-- Accumulated effects while the turn body runs. -/
structure TurnAcc where
  mid : List Envelope
  redis : RedisState
  calls : List StageCall
deriving DecidableEq, Repr

/-- Result of the turn body: accumulated effects plus the exception the
`except Exception` clause catches, if any statement raised. -/
structure TurnOut where
  mid : List Envelope
  redis : RedisState
  calls : List StageCall
  err : Option String
deriving DecidableEq, Repr

/-- Body ended without an exception. -/
def TurnAcc.done (acc : TurnAcc) : TurnOut :=
  ⟨acc.mid, acc.redis, acc.calls, none⟩

/-- Body aborted by an exception `e`. -/
def TurnAcc.raised (acc : TurnAcc) (e : String) : TurnOut :=
  ⟨acc.mid, acc.redis, acc.calls, some e⟩

/-- `websocket.send_json` inside the turn body. -/
def TurnAcc.send (acc : TurnAcc) (e : Envelope) : TurnAcc :=
  { acc with mid := acc.mid ++ [e] }

/-- Record one external call in the trace. -/
def TurnAcc.call (acc : TurnAcc) (c : StageCall) : TurnAcc :=
  { acc with calls := acc.calls ++ [c] }

/-- Text-to-speech stage: `voice_service.synthesize_speech(...)` with the
per-field defaults from `voicePreferences`, then base64-encode and send the
`audio` envelope. -/
def ttsStage (ctx : Option UserContext) (o : TurnOracle)
    (acc : TurnAcc) : TurnOut :=
  let prefs := voicePrefsOf ctx
  let acc := acc.call (.synthesize (prefs.name.getD "en-US-AriaNeural")
    (prefs.pitch.getD 1) (prefs.rate.getD 1) (prefs.volume.getD 1))
  match o.tts with
  | .error e => acc.raised e
  | .ok audioB64 => (acc.send (.audio audioB64)).done

/-- Assistant-history stage: when `user_context and user_context.get("userId")`,
`rpush` the assistant entry (no `expire` here), then the TTS stage. -/
def saveAssistantStage (ctx : Option UserContext) (o : TurnOracle)
    (responseText : String) (acc : TurnAcc) : TurnOut :=
  if hasTruthyUserId ctx then
    let acc := acc.call (.rpush "assistant")
    match o.rpushAssistant with
    | .error e => acc.raised e
    | .ok _ =>
      let acc := { acc with
        redis := acc.redis.rpush ⟨"assistant", responseText⟩ }
      ttsStage ctx o acc
  else
    ttsStage ctx o acc

/-- Language-model stage: `voice_service.get_llm_response(transcript,
provider=llm_provider, context=user_context)`, then send the `response`
envelope and continue with the assistant-history stage. -/
def llmStage (svc : VoiceService) (ctx : Option UserContext) (o : TurnOracle)
    (_transcript : String) (acc : TurnAcc) : TurnOut :=
  let provider := providerOf ctx
  let acc := acc.call (.complete provider)
  match get_llm_response svc provider o with
  | .error e => acc.raised e
  | .ok responseText =>
    let acc := acc.send (.response responseText)
    saveAssistantStage ctx o responseText acc

/-- User-history stage: when `user_context and user_context.get("userId")`,
`rpush` the user entry then `expire(history_key, 86400)`, then the
language-model stage. -/
def saveUserStage (svc : VoiceService) (ctx : Option UserContext)
    (o : TurnOracle) (transcript : String) (acc : TurnAcc) : TurnOut :=
  if hasTruthyUserId ctx then
    let acc := acc.call (.rpush "user")
    match o.rpushUser with
    | .error e => acc.raised e
    | .ok _ =>
      let acc := { acc with redis := acc.redis.rpush ⟨"user", transcript⟩ }
      let acc := acc.call (.expire 86400)
      match o.expireUser with
      | .error e => acc.raised e
      | .ok _ =>
        let acc := { acc with redis := acc.redis.expire 86400 }
        llmStage svc ctx o transcript acc
  else
    llmStage svc ctx o transcript acc

/-- The whole `try:` block of the `audio` branch: base64-decode the payload,
transcribe, send the `transcript` envelope, then the remaining stages. -/
def turnBody (svc : VoiceService) (ctx : Option UserContext) (o : TurnOracle)
    (r0 : RedisState) : TurnOut :=
  let acc : TurnAcc := ⟨[], r0, [.b64decode]⟩
  match o.b64 with
  | .error e => acc.raised e
  | .ok _audioBytes =>
    let acc := acc.call .transcribe
    match o.stt with
    | .error e => acc.raised e
    | .ok transcript =>
      let acc := acc.send (.transcript transcript)
      saveUserStage svc ctx o transcript acc

/-- Everything one `audio` event emits and changes. -/
structure TurnResult where
  sent : List Envelope
  redis : RedisState
  calls : List StageCall
deriving DecidableEq, Repr

/-- The full `audio` branch: `processing{start}` first, then the `try:` body,
then (in `except Exception`) the `error` envelope when the body raised, and
(in `finally`) `processing{end}` last. -/
def runAudioTurn (svc : VoiceService) (ctx : Option UserContext)
    (o : TurnOracle) (r0 : RedisState) : TurnResult :=
  let out := turnBody svc ctx o r0
  { sent := Envelope.processing "start" :: out.mid ++
      (match out.err with
       | some e => [Envelope.error e]
       | none => []) ++ [Envelope.processing "end"],
    redis := out.redis,
    calls := out.calls }

/-! ## The session loop (`voice_stream`) -/

/-- One frame received by `websocket.receive_text`, together with the
results of the external calls its handling would perform.
`malformed` is a frame `json.loads` raises on; `other` is a parsed message
whose `type` is missing or matches no branch; `context` carries the `data`
dict (absent key modelled as `none`, the code substitutes `{}`) and the
combined result of the `lrange` call and the `json.loads` of each returned
item. -/
inductive Inbound where
  | malformed : Inbound
  | context (data : Option UserContext)
      (lrangeRes : Except String (List HistoryEntry)) : Inbound
  | audio (o : TurnOracle) : Inbound
  | other (msgType : Option String) : Inbound

/-- Per-connection state of `voice_stream`: the `user_context` variable, the
session user's redis key, the ordered envelopes sent so far, the external
call trace, and whether the handler has left its `while True:` loop
(`closed`). -/
structure SessionState where
  userContext : Option UserContext := none
  redis : RedisState
  sent : List Envelope := []
  calls : List StageCall := []
  closed : Bool := false
deriving Repr

/-- Handling of one inbound frame by `voice_stream`'s loop.  An exception
escaping the loop body (malformed JSON, or a context-time history read that
raises) reaches the handler's outer `except Exception`: it sends the generic
`error` envelope, drops the registry entry, and the loop ends. -/
def stepSession (svc : VoiceService) (st : SessionState) (f : Inbound) :
    SessionState :=
  if st.closed then st
  else
    match f with
    | .malformed =>
      { st with sent := st.sent ++ [Envelope.error "Internal server error"],
                closed := true }
    | .context data lrangeRes =>
      let ctx := data.getD {}
      if pyTruthyStr ctx.userId then
        let st := { st with calls := st.calls ++ [StageCall.lrange] }
        match lrangeRes with
        | .error _ =>
          { st with userContext := some ctx,
                    sent := st.sent ++ [Envelope.error "Internal server error"],
                    closed := true }
        | .ok _history =>
          { st with userContext := some ctx,
                    sent := st.sent ++ [Envelope.ready] }
      else
        { st with userContext := some ctx,
                  sent := st.sent ++ [Envelope.ready] }
    | .audio o =>
      let tr := runAudioTurn svc st.userContext o st.redis
      { st with sent := st.sent ++ tr.sent, redis := tr.redis,
                calls := st.calls ++ tr.calls }
    | .other _ => st

/-- The `while True:` loop over a finite prefix of inbound frames. -/
def runSession (svc : VoiceService) (frames : List Inbound)
    (st : SessionState) : SessionState :=
  frames.foldl (stepSession svc) st

/-- The state right after `websocket.accept()`: no context, nothing sent. -/
def initialSession (r0 : RedisState) : SessionState :=
  { redis := r0 }

/-! ## Concrete fixtures shared by the claims -/

/-- A service with only the claude credential set. -/
def svcClaude : VoiceService := { claude_api_key := some "k" }

/-- A context dict carrying only a userId. -/
def ctxU1 : UserContext := { userId := some "u1" }

/-- An oracle on which every external call succeeds. -/
def oracleOk : TurnOracle :=
  { b64 := .ok "bytes", stt := .ok "hello", rpushUser := .ok (),
    expireUser := .ok (), claudeCall := .ok "reply",
    rpushAssistant := .ok (), tts := .ok "mp3" }

/-- An oracle whose anthropic call fails, everything else succeeding. -/
def oracleClaudeDown : TurnOracle :=
  { oracleOk with claudeCall := .error "boom" }

/-- An empty redis key state. -/
def redis0 : RedisState := ⟨[], none⟩

/-! ## C7: voice parameter mapping -/

/-- C7: the linear-to-native mapping is `int((p - 1.0) * 50)` Hz for pitch
and `int((r - 1.0) * 100)` percent for rate, so pitch 1 and rate 1 map to a
zero offset, pitch 3/2 maps to +25 Hz, and rate 1/2 maps to -50 percent. -/
lemma pyInt_intCast (n : ℤ) : pyInt (n : ℚ) = n := by
  unfold pyInt
  split
  · exact Int.floor_intCast n
  · exact Int.ceil_intCast n

theorem C7_voice_param_mapping :
    pitchToHz 1 = 0 ∧ rateToPercent 1 = 0 ∧
    pitchToHz (3 / 2) = 25 ∧ rateToPercent (1 / 2) = -50 := by
  refine ⟨?_, ?_, ?_, ?_⟩
  · rw [pitchToHz, show ((1 : ℚ) - 1) * 50 = ((0 : ℤ) : ℚ) by norm_num,
      pyInt_intCast]
  · rw [rateToPercent, show ((1 : ℚ) - 1) * 100 = ((0 : ℤ) : ℚ) by norm_num,
      pyInt_intCast]
  · rw [pitchToHz, show ((3 : ℚ) / 2 - 1) * 50 = ((25 : ℤ) : ℚ) by norm_num,
      pyInt_intCast]
  · rw [rateToPercent,
      show ((1 : ℚ) / 2 - 1) * 100 = ((-50 : ℤ) : ℚ) by norm_num,
      pyInt_intCast]

/-! ## C8: system prompt construction -/

/-- The personalization clause for a given name. -/
def personalClause (nm : String) : String :=
  "\n\nYou are speaking with " ++ nm ++ "."

lemma basePrompt_append_clause_ne (nm : String) :
    basePrompt ++ personalClause nm ≠ basePrompt := by
  intro h
  have h2 := congrArg String.length h
  rw [String.length_append] at h2
  have h3 : (personalClause nm).length =
      ("\n\nYou are speaking with ").length + nm.length + (".").length := by
    simp [personalClause, String.length_append]
  have h4 : 0 < ("\n\nYou are speaking with ").length := by decide
  omega

/-- Truthiness of the optional context dict, as `if context:` tests it. -/
def contextTruthy : Option UserContext → Bool
  | none => false
  | some c => c.isTruthy

/-- C8 counterexample: a context that carries a userId but no user name is
truthy, so the personalization clause is appended (with the placeholder
name "there") even though no user name is known. -/
theorem C8_counterexample :
    build_system_prompt (some ctxU1) = basePrompt ++ personalClause "there" ∧
    build_system_prompt (some ctxU1) ≠ basePrompt := by
  have heq : build_system_prompt (some ctxU1) =
      basePrompt ++ personalClause "there" := by
    simp [build_system_prompt, ctxU1, UserContext.isTruthy, personalClause,
      String.append_assoc]
  refine ⟨heq, ?_⟩
  rw [heq]
  exact basePrompt_append_clause_ne "there"

/-- C8 amended: the prompt is the fixed persona text exactly when the
context dict is absent or empty; otherwise it is the persona text with one
personalization clause appended, naming `userName` when present and the
placeholder "there" otherwise. -/
theorem C8_amended (c : Option UserContext) :
    (build_system_prompt c = basePrompt ∨
      build_system_prompt c =
        basePrompt ++ personalClause ((c.getD {}).userName.getD "there")) ∧
    (build_system_prompt c = basePrompt ↔ contextTruthy c = false) := by
  match c with
  | none => exact ⟨Or.inl rfl, by simp [build_system_prompt, contextTruthy]⟩
  | some u =>
    by_cases h : u.isTruthy
    · have heq : build_system_prompt (some u) =
          basePrompt ++ personalClause (u.userName.getD "there") := by
        simp [build_system_prompt, h, personalClause, String.append_assoc]
      refine ⟨Or.inr heq, ?_⟩
      rw [heq]
      simp [contextTruthy, h]
      exact basePrompt_append_clause_ne _
    · exact ⟨Or.inl (by simp [build_system_prompt, h]),
        by simp [build_system_prompt, h, contextTruthy]⟩

/-! ## C5: missing provider credentials -/

/-- C5 counterexample: with every credential absent, selecting the gemini
or openai provider does not fail with a configuration error — both return a
fixed placeholder reply. -/
theorem C5_counterexample :
    get_llm_response {} "gemini" oracleOk =
      .ok "Gemini integration coming soon." ∧
    get_llm_response {} "openai" oracleOk =
      .ok "OpenAI integration coming soon." :=
  ⟨rfl, rfl⟩

/-- C5 amended: only the claude provider checks its credential — with a
falsy `CLAUDE_API_KEY` the claude stage fails with a configuration error
naming the key, while the gemini and openai stages are placeholders that
return fixed strings regardless of credentials. -/
theorem C5_amended (svc : VoiceService) (o : TurnOracle)
    (h : pyTruthyStr svc.claude_api_key = false) :
    get_llm_response svc "claude" o = .error "CLAUDE_API_KEY not configured" ∧
    get_llm_response svc "gemini" o = .ok "Gemini integration coming soon." ∧
    get_llm_response svc "openai" o = .ok "OpenAI integration coming soon." :=
  ⟨by simp [get_llm_response, get_claude_response, h], rfl, rfl⟩

theorem C5_amended_witness :
    pyTruthyStr (VoiceService.claude_api_key {}) = false ∧
    get_llm_response {} "claude" oracleOk =
      .error "CLAUDE_API_KEY not configured" :=
  ⟨rfl, (C5_amended {} oracleOk rfl).1⟩

/-! ## C6: provider-side failure falls back -/

/-- C6: when the selected provider is claude and its credential is set, a
provider-side failure of the anthropic call does not propagate — the stage
returns the fixed apologetic fallback, and a turn reaching that stage still
emits its `response` and `audio` envelopes and completes. -/
theorem C6_llm_fallback (svc : VoiceService) (o : TurnOracle)
    (r0 : RedisState) (b t a e : String)
    (hkey : pyTruthyStr svc.claude_api_key = true)
    (hcall : o.claudeCall = .error e)
    (hb : o.b64 = .ok b) (hs : o.stt = .ok t) (htts : o.tts = .ok a) :
    get_llm_response svc "claude" o = .ok claudeFallback ∧
    (runAudioTurn svc none o r0).sent =
      [Envelope.processing "start", Envelope.transcript t,
       Envelope.response claudeFallback, Envelope.audio a,
       Envelope.processing "end"] := by
  have hllm : get_llm_response svc "claude" o = .ok claudeFallback := by
    simp [get_llm_response, get_claude_response, hkey, hcall]
  refine ⟨hllm, ?_⟩
  simp [runAudioTurn, turnBody, hb, hs, saveUserStage, hasTruthyUserId,
    llmStage, providerOf, hllm, saveAssistantStage, ttsStage, htts,
    voicePrefsOf, TurnAcc.send, TurnAcc.call, TurnAcc.done, TurnAcc.raised]

theorem C6_llm_fallback_witness :
    get_llm_response svcClaude "claude" oracleClaudeDown = .ok claudeFallback ∧
    (runAudioTurn svcClaude none oracleClaudeDown redis0).sent =
      [Envelope.processing "start", Envelope.transcript "hello",
       Envelope.response claudeFallback, Envelope.audio "mp3",
       Envelope.processing "end"] :=
  C6_llm_fallback svcClaude oracleClaudeDown redis0 "bytes" "hello" "mp3"
    "boom" rfl rfl rfl rfl rfl

/-! ## C1: turn framing -/

/-- The envelopes the turn body may send between the `processing` frames. -/
def isTurnMid : Envelope → Bool
  | .transcript _ => true
  | .response _ => true
  | .audio _ => true
  | .error _ => true
  | _ => false

lemma ttsStage_mid (ctx : Option UserContext) (o : TurnOracle)
    (acc : TurnAcc) :
    ∃ l, (ttsStage ctx o acc).mid = acc.mid ++ l ∧ l.all isTurnMid = true := by
  cases h : o.tts with
  | error e =>
    exact ⟨[], by simp [ttsStage, h, TurnAcc.call, TurnAcc.raised], rfl⟩
  | ok a =>
    exact ⟨[Envelope.audio a],
      by simp [ttsStage, h, TurnAcc.call, TurnAcc.send, TurnAcc.done], rfl⟩

lemma saveAssistantStage_mid (ctx : Option UserContext) (o : TurnOracle)
    (responseText : String) (acc : TurnAcc) :
    ∃ l, (saveAssistantStage ctx o responseText acc).mid = acc.mid ++ l ∧
      l.all isTurnMid = true := by
  unfold saveAssistantStage
  by_cases hu : hasTruthyUserId ctx
  · simp only [hu, if_true]
    cases h : o.rpushAssistant with
    | error e =>
      exact ⟨[], by simp [h, TurnAcc.call, TurnAcc.raised], rfl⟩
    | ok _ =>
      simp only [h]
      obtain ⟨l, hl, ha⟩ := ttsStage_mid ctx o
        { acc.call (.rpush "assistant") with
          redis := (acc.call (.rpush "assistant")).redis.rpush
            ⟨"assistant", responseText⟩ }
      exact ⟨l, by simpa [TurnAcc.call] using hl, ha⟩
  · simp only [hu, if_false]
    exact ttsStage_mid ctx o acc

lemma llmStage_mid (svc : VoiceService) (ctx : Option UserContext)
    (o : TurnOracle) (t : String) (acc : TurnAcc) :
    ∃ l, (llmStage svc ctx o t acc).mid = acc.mid ++ l ∧
      l.all isTurnMid = true := by
  unfold llmStage
  cases h : get_llm_response svc (providerOf ctx) o with
  | error e =>
    exact ⟨[], by simp [h, TurnAcc.call, TurnAcc.raised], rfl⟩
  | ok responseText =>
    simp only [h]
    obtain ⟨l, hl, ha⟩ := saveAssistantStage_mid ctx o responseText
      ((acc.call (.complete (providerOf ctx))).send (.response responseText))
    refine ⟨Envelope.response responseText :: l, ?_, by simp [ha, isTurnMid]⟩
    rw [hl]
    simp [TurnAcc.call, TurnAcc.send]

lemma saveUserStage_mid (svc : VoiceService) (ctx : Option UserContext)
    (o : TurnOracle) (t : String) (acc : TurnAcc) :
    ∃ l, (saveUserStage svc ctx o t acc).mid = acc.mid ++ l ∧
      l.all isTurnMid = true := by
  unfold saveUserStage
  by_cases hu : hasTruthyUserId ctx
  · simp only [hu, if_true]
    cases h1 : o.rpushUser with
    | error e =>
      exact ⟨[], by simp [h1, TurnAcc.call, TurnAcc.raised], rfl⟩
    | ok _ =>
      simp only [h1]
      cases h2 : o.expireUser with
      | error e =>
        exact ⟨[], by simp [h2, TurnAcc.call, TurnAcc.raised], rfl⟩
      | ok _ =>
        simp only [h2]
        obtain ⟨l, hl, ha⟩ := llmStage_mid svc ctx o t
          ({ { acc.call (.rpush "user") with
              redis := (acc.call (.rpush "user")).redis.rpush ⟨"user", t⟩ }.call
                (.expire 86400) with
            redis := ({ acc.call (.rpush "user") with
              redis := (acc.call (.rpush "user")).redis.rpush
                ⟨"user", t⟩ }.call (.expire 86400)).redis.expire 86400 })
        exact ⟨l, by simpa [TurnAcc.call] using hl, ha⟩
  · simp only [hu, if_false]
    exact llmStage_mid svc ctx o t acc

lemma turnBody_mid (svc : VoiceService) (ctx : Option UserContext)
    (o : TurnOracle) (r0 : RedisState) :
    ∃ l, (turnBody svc ctx o r0).mid = l ∧ l.all isTurnMid = true := by
  unfold turnBody
  cases h1 : o.b64 with
  | error e => exact ⟨[], by simp [TurnAcc.raised], rfl⟩
  | ok a =>
    simp only [h1]
    cases h2 : o.stt with
    | error e => exact ⟨[], by simp [h2, TurnAcc.call, TurnAcc.raised], rfl⟩
    | ok t =>
      simp only [h2]
      obtain ⟨l, hl, ha⟩ := saveUserStage_mid svc ctx o t
        (((⟨[], r0, [.b64decode]⟩ : TurnAcc).call .transcribe).send
          (.transcript t))
      refine ⟨Envelope.transcript t :: l, ?_, by simp [ha, isTurnMid]⟩
      rw [hl]
      simp [TurnAcc.call, TurnAcc.send]

/-- C1: every `audio` event handled by the session loop (while the loop is
live) appends to the outbound stream exactly one `processing{start}`, then
only `transcript`/`response`/`audio`/`error` envelopes, then exactly one
`processing{end}`; the `end` frame closes the turn on every exit path,
including when any pipeline stage raises. -/
theorem C1_turn_framing (svc : VoiceService) (st : SessionState)
    (o : TurnOracle) (hlive : st.closed = false) :
    ∃ mid, (stepSession svc st (Inbound.audio o)).sent =
        st.sent ++ (Envelope.processing "start" ::
          mid ++ [Envelope.processing "end"]) ∧
      mid.all isTurnMid = true := by
  obtain ⟨l, hl, ha⟩ := turnBody_mid svc st.userContext o st.redis
  cases herr : (turnBody svc st.userContext o st.redis).err with
  | none =>
    exact ⟨l, by simp [stepSession, hlive, runAudioTurn, herr, hl], ha⟩
  | some e =>
    refine ⟨l ++ [Envelope.error e], ?_, by simp [ha, isTurnMid]⟩
    simp [stepSession, hlive, runAudioTurn, herr, hl]

theorem C1_turn_framing_witness :
    ∃ mid, (stepSession svcClaude (initialSession redis0)
        (Inbound.audio oracleOk)).sent =
        (initialSession redis0).sent ++ (Envelope.processing "start" ::
          mid ++ [Envelope.processing "end"]) ∧
      mid.all isTurnMid = true :=
  C1_turn_framing svcClaude (initialSession redis0) oracleOk rfl

/-! ## C2: malformed inbound frames -/

/-- C2 counterexample: a frame that is not valid structured data makes the
handler leave its receive loop — the session sends the generic error
envelope, closes, and a well-formed `context` frame sent afterwards is not
processed (no `ready` is ever emitted). -/
theorem C2_counterexample :
    (runSession {} [Inbound.malformed,
        Inbound.context (some ctxU1) (.ok [])]
      (initialSession redis0)).sent =
      [Envelope.error "Internal server error"] ∧
    (runSession {} [Inbound.malformed,
        Inbound.context (some ctxU1) (.ok [])]
      (initialSession redis0)).closed = true :=
  ⟨rfl, rfl⟩

/-- C2 amended: a parsed frame whose `type` is missing or unrecognized is
silently skipped and the session continues unchanged, but a frame that is
not valid structured data raises out of the loop body — the handler sends a
generic `error` envelope and the session loop terminates, so subsequent
frames are not processed. -/
theorem C2_amended (svc : VoiceService) (st : SessionState)
    (t : Option String) (hlive : st.closed = false) :
    stepSession svc st (Inbound.other t) = st ∧
    (stepSession svc st Inbound.malformed).sent =
      st.sent ++ [Envelope.error "Internal server error"] ∧
    (stepSession svc st Inbound.malformed).closed = true := by
  refine ⟨?_, ?_, ?_⟩ <;> simp [stepSession, hlive]

theorem C2_amended_witness :
    stepSession {} (initialSession redis0) (Inbound.other none) =
      initialSession redis0 ∧
    (stepSession {} (initialSession redis0) Inbound.malformed).sent =
      (initialSession redis0).sent ++
        [Envelope.error "Internal server error"] ∧
    (stepSession {} (initialSession redis0) Inbound.malformed).closed =
      true :=
  C2_amended {} (initialSession redis0) none rfl

/-! ## C3: history-cache failures -/

/-- C3 counterexample: when the context-time history read raises, the
failure is not swallowed — the handler sends the generic error envelope and
the session loop terminates instead of proceeding with empty history. -/
theorem C3_counterexample :
    (stepSession {} (initialSession redis0)
      (Inbound.context (some ctxU1) (.error "redis down"))).closed = true ∧
    (stepSession {} (initialSession redis0)
      (Inbound.context (some ctxU1) (.error "redis down"))).sent =
      [Envelope.error "Internal server error"] :=
  ⟨rfl, rfl⟩

/-- C3 amended: history-cache failures are not swallowed.  A failure of the
context-time read escapes the loop body: a generic error envelope is sent
and the session loop terminates.  A failure of a per-turn write is caught
by the turn handler: the failure's message is sent to the client as an
`error` envelope, the remaining stages are skipped, `processing{end}` still
closes the turn, and the write leaves the cache unchanged. -/
theorem C3_amended (svc : VoiceService) (st su : SessionState)
    (c : UserContext) (o : TurnOracle) (b t e1 e2 : String)
    (hlive : st.closed = false) (huid : pyTruthyStr c.userId = true)
    (hulive : su.closed = false) (huctx : su.userContext = some c)
    (hb : o.b64 = .ok b) (hs : o.stt = .ok t)
    (hr : o.rpushUser = .error e2) :
    ((stepSession svc st (Inbound.context (some c) (.error e1))).closed =
        true ∧
      (stepSession svc st (Inbound.context (some c) (.error e1))).sent =
        st.sent ++ [Envelope.error "Internal server error"]) ∧
    ((stepSession svc su (Inbound.audio o)).sent =
        su.sent ++ [Envelope.processing "start", Envelope.transcript t,
          Envelope.error e2, Envelope.processing "end"] ∧
      (stepSession svc su (Inbound.audio o)).redis = su.redis ∧
      (stepSession svc su (Inbound.audio o)).closed = false) := by
  have htr : hasTruthyUserId (some c) = true := by
    rcases hc : c.userId with _ | s
    · rw [hc] at huid
      simp [pyTruthyStr] at huid
    · rw [hc] at huid
      simp [hasTruthyUserId, UserContext.isTruthy, hc, huid]
  refine ⟨⟨?_, ?_⟩, ?_, ?_, ?_⟩
  · simp [stepSession, hlive, huid]
  · simp [stepSession, hlive, huid]
  · simp [stepSession, hulive, huctx, runAudioTurn, turnBody, hb, hs,
      saveUserStage, htr, hr, TurnAcc.call, TurnAcc.send, TurnAcc.raised]
  · simp [stepSession, hulive, huctx, runAudioTurn, turnBody, hb, hs,
      saveUserStage, htr, hr, TurnAcc.call, TurnAcc.send, TurnAcc.raised]
  · simp [stepSession, hulive, hulive]

/-- A live session that already stored the `ctxU1` context. -/
def sessionWithCtxU1 : SessionState :=
  { userContext := some ctxU1, redis := redis0 }

theorem C3_amended_witness :
    ((stepSession {} (initialSession redis0)
        (Inbound.context (some ctxU1) (.error "read down"))).closed = true ∧
      (stepSession {} (initialSession redis0)
        (Inbound.context (some ctxU1) (.error "read down"))).sent =
        (initialSession redis0).sent ++
          [Envelope.error "Internal server error"]) ∧
    ((stepSession {} sessionWithCtxU1
        (Inbound.audio { oracleOk with rpushUser := .error "write down" })).sent =
        sessionWithCtxU1.sent ++
          [Envelope.processing "start", Envelope.transcript "hello",
           Envelope.error "write down", Envelope.processing "end"] ∧
      (stepSession {} sessionWithCtxU1
        (Inbound.audio { oracleOk with rpushUser := .error "write down" })).redis =
        sessionWithCtxU1.redis ∧
      (stepSession {} sessionWithCtxU1
        (Inbound.audio { oracleOk with rpushUser := .error "write down" })).closed =
        false) :=
  C3_amended {} (initialSession redis0) sessionWithCtxU1 ctxU1
    { oracleOk with rpushUser := .error "write down" }
    "bytes" "hello" "read down" "write down" rfl rfl rfl rfl rfl rfl rfl

/-! ## C4: history appends and TTL -/

/-- C4 counterexample: a fully successful turn for a known user performs
two appends but only one `expire` — the trace shows the assistant-role
append at the tail with no TTL refresh after it, so not every write
refreshes the TTL. -/
theorem C4_counterexample :
    (runAudioTurn svcClaude (some ctxU1) oracleOk redis0).calls =
      [StageCall.b64decode, StageCall.transcribe, StageCall.rpush "user",
       StageCall.expire 86400, StageCall.complete "claude",
       StageCall.rpush "assistant",
       StageCall.synthesize "en-US-AriaNeural" 1 1 1] ∧
    (runAudioTurn svcClaude (some ctxU1) oracleOk redis0).redis.log =
      [⟨"user", "hello"⟩, ⟨"assistant", "reply"⟩] :=
  ⟨rfl, rfl⟩

/-- C4 amended: on a successful turn for a known user, both entries are
pushed to the tail of the log, but only the user-role append is followed by
an `expire(86400)` TTL refresh — the assistant-role append does not refresh
the TTL. -/
theorem C4_amended (svc : VoiceService) (ctx : Option UserContext)
    (o : TurnOracle) (r0 : RedisState) (b t resp : String)
    (hctx : hasTruthyUserId ctx = true)
    (hb : o.b64 = .ok b) (hs : o.stt = .ok t)
    (hru : o.rpushUser = .ok ()) (hex : o.expireUser = .ok ())
    (hllm : get_llm_response svc (providerOf ctx) o = .ok resp)
    (hra : o.rpushAssistant = .ok ()) :
    (runAudioTurn svc ctx o r0).redis.log =
      r0.log ++ [⟨"user", t⟩, ⟨"assistant", resp⟩] ∧
    (runAudioTurn svc ctx o r0).redis.ttlSeconds = some 86400 ∧
    (runAudioTurn svc ctx o r0).calls =
      [StageCall.b64decode, StageCall.transcribe, StageCall.rpush "user",
       StageCall.expire 86400, StageCall.complete (providerOf ctx),
       StageCall.rpush "assistant",
       StageCall.synthesize ((voicePrefsOf ctx).name.getD "en-US-AriaNeural")
         ((voicePrefsOf ctx).pitch.getD 1) ((voicePrefsOf ctx).rate.getD 1)
         ((voicePrefsOf ctx).volume.getD 1)] := by
  rcases htts : o.tts with e | a <;>
    refine ⟨?_, ?_, ?_⟩ <;>
      simp [runAudioTurn, turnBody, hb, hs, saveUserStage, hctx, hru, hex,
        llmStage, hllm, saveAssistantStage, hra, ttsStage, htts,
        TurnAcc.call, TurnAcc.send, TurnAcc.raised, TurnAcc.done,
        RedisState.rpush, RedisState.expire]

theorem C4_amended_witness :
    (runAudioTurn svcClaude (some ctxU1) oracleOk redis0).redis.log =
      redis0.log ++ [⟨"user", "hello"⟩, ⟨"assistant", "reply"⟩] ∧
    (runAudioTurn svcClaude (some ctxU1) oracleOk redis0).redis.ttlSeconds =
      some 86400 ∧
    (runAudioTurn svcClaude (some ctxU1) oracleOk redis0).calls =
      [StageCall.b64decode, StageCall.transcribe, StageCall.rpush "user",
       StageCall.expire 86400,
       StageCall.complete (providerOf (some ctxU1)),
       StageCall.rpush "assistant",
       StageCall.synthesize
         ((voicePrefsOf (some ctxU1)).name.getD "en-US-AriaNeural")
         ((voicePrefsOf (some ctxU1)).pitch.getD 1)
         ((voicePrefsOf (some ctxU1)).rate.getD 1)
         ((voicePrefsOf (some ctxU1)).volume.getD 1)] :=
  C4_amended svcClaude (some ctxU1) oracleOk redis0 "bytes" "hello" "reply"
    rfl rfl rfl rfl rfl rfl rfl

/-! ## C9: audio before any context event -/

/-- C9: an `audio` event arriving while the session is still in its initial
state (no `context` processed) is not rejected — the whole
transcribe → complete → synthesize pipeline runs with the default provider
"claude" and the default voice parameters (`en-US-AriaNeural`, pitch, rate
and volume 1), no history read or write is attempted, and the session
stays open. -/
theorem C9_audio_before_context (svc : VoiceService) (o : TurnOracle)
    (r0 : RedisState) (b t resp a : String)
    (hb : o.b64 = .ok b) (hs : o.stt = .ok t)
    (hkey : pyTruthyStr svc.claude_api_key = true)
    (hcall : o.claudeCall = .ok resp) (htts : o.tts = .ok a) :
    (stepSession svc (initialSession r0) (Inbound.audio o)).sent =
      [Envelope.processing "start", Envelope.transcript t,
       Envelope.response resp, Envelope.audio a,
       Envelope.processing "end"] ∧
    (stepSession svc (initialSession r0) (Inbound.audio o)).calls =
      [StageCall.b64decode, StageCall.transcribe, StageCall.complete "claude",
       StageCall.synthesize "en-US-AriaNeural" 1 1 1] ∧
    (stepSession svc (initialSession r0) (Inbound.audio o)).redis = r0 ∧
    (stepSession svc (initialSession r0) (Inbound.audio o)).closed =
      false := by
  have hllm : get_llm_response svc "claude" o = .ok resp := by
    simp [get_llm_response, get_claude_response, hkey, hcall]
  refine ⟨?_, ?_, ?_, ?_⟩ <;>
    simp [stepSession, initialSession, runAudioTurn, turnBody, hb, hs,
      saveUserStage, hasTruthyUserId, llmStage, providerOf, hllm,
      saveAssistantStage, ttsStage, htts, voicePrefsOf,
      TurnAcc.call, TurnAcc.send, TurnAcc.done, TurnAcc.raised]

theorem C9_audio_before_context_witness :
    (stepSession svcClaude (initialSession redis0) (Inbound.audio oracleOk)).sent =
      [Envelope.processing "start", Envelope.transcript "hello",
       Envelope.response "reply", Envelope.audio "mp3",
       Envelope.processing "end"] ∧
    (stepSession svcClaude (initialSession redis0) (Inbound.audio oracleOk)).calls =
      [StageCall.b64decode, StageCall.transcribe, StageCall.complete "claude",
       StageCall.synthesize "en-US-AriaNeural" 1 1 1] ∧
    (stepSession svcClaude (initialSession redis0) (Inbound.audio oracleOk)).redis =
      redis0 ∧
    (stepSession svcClaude (initialSession redis0) (Inbound.audio oracleOk)).closed =
      false :=
  C9_audio_before_context svcClaude oracleOk redis0 "bytes" "hello" "reply"
    "mp3" rfl rfl rfl rfl rfl

/-! ## C10: a failed turn is not atomic -/

/-- C10: when a stage after the user-history append fails — the
language-model call raising, or synthesis failing — the user-role entry
appended earlier in the turn stays in the cache and the `transcript`
envelope already sent is not retracted; only the remaining stages are
skipped. -/
theorem C10_failed_turn_not_atomic (svc1 svc2 : VoiceService)
    (ctx : Option UserContext) (o1 o2 : TurnOracle) (r0 : RedisState)
    (b t resp e1 e2 : String)
    (hctx : hasTruthyUserId ctx = true)
    (h1b : o1.b64 = .ok b) (h1s : o1.stt = .ok t)
    (h1ru : o1.rpushUser = .ok ()) (h1ex : o1.expireUser = .ok ())
    (h1llm : get_llm_response svc1 (providerOf ctx) o1 = .error e1)
    (h2b : o2.b64 = .ok b) (h2s : o2.stt = .ok t)
    (h2ru : o2.rpushUser = .ok ()) (h2ex : o2.expireUser = .ok ())
    (h2llm : get_llm_response svc2 (providerOf ctx) o2 = .ok resp)
    (h2ra : o2.rpushAssistant = .ok ()) (h2tts : o2.tts = .error e2) :
    ((runAudioTurn svc1 ctx o1 r0).redis.log = r0.log ++ [⟨"user", t⟩] ∧
      (runAudioTurn svc1 ctx o1 r0).sent =
        [Envelope.processing "start", Envelope.transcript t,
         Envelope.error e1, Envelope.processing "end"]) ∧
    ((runAudioTurn svc2 ctx o2 r0).redis.log =
        r0.log ++ [⟨"user", t⟩, ⟨"assistant", resp⟩] ∧
      (runAudioTurn svc2 ctx o2 r0).sent =
        [Envelope.processing "start", Envelope.transcript t,
         Envelope.response resp, Envelope.error e2,
         Envelope.processing "end"]) := by
  refine ⟨⟨?_, ?_⟩, ?_, ?_⟩ <;>
    simp [runAudioTurn, turnBody, h1b, h1s, h2b, h2s, saveUserStage, hctx,
      h1ru, h1ex, h2ru, h2ex, llmStage, h1llm, h2llm, saveAssistantStage,
      h2ra, ttsStage, h2tts, TurnAcc.call, TurnAcc.send, TurnAcc.raised,
      TurnAcc.done, RedisState.rpush, RedisState.expire]

theorem C10_failed_turn_not_atomic_witness :
    ((runAudioTurn {} (some ctxU1) oracleOk redis0).redis.log =
        redis0.log ++ [⟨"user", "hello"⟩] ∧
      (runAudioTurn {} (some ctxU1) oracleOk redis0).sent =
        [Envelope.processing "start", Envelope.transcript "hello",
         Envelope.error "CLAUDE_API_KEY not configured",
         Envelope.processing "end"]) ∧
    ((runAudioTurn svcClaude (some ctxU1)
        { oracleOk with tts := .error "tts down" } redis0).redis.log =
        redis0.log ++ [⟨"user", "hello"⟩, ⟨"assistant", "reply"⟩] ∧
      (runAudioTurn svcClaude (some ctxU1)
        { oracleOk with tts := .error "tts down" } redis0).sent =
        [Envelope.processing "start", Envelope.transcript "hello",
         Envelope.response "reply", Envelope.error "tts down",
         Envelope.processing "end"]) :=
  C10_failed_turn_not_atomic {} svcClaude (some ctxU1) oracleOk
    { oracleOk with tts := .error "tts down" } redis0 "bytes" "hello"
    "reply" "CLAUDE_API_KEY not configured" "tts down"
    rfl rfl rfl rfl rfl rfl rfl rfl rfl rfl rfl rfl rfl
